import Mathlib

/-
Shallow embedding of the x-auto-pilot front-end session machinery:
the token-refreshing API client (fetchApi, refreshAccessToken from the
api-client module), the AuthProvider session store (auth-context.tsx),
the route-guard middleware, and the TierGate component.

Conventions of the embedding:
  - The browser-visible state is a `Browser` record: localStorage
    (access_token, refresh_token), the presence of the has_session
    cookie, and the current navigation target (window.location.href).
  - The network is a `Net` record holding the response each of the up
    to three fetches of one fetchApi call would receive: the initial
    request, the refresh-endpoint request, and the retried request.
    `none` models a fetch that throws (network failure).
  - A parsed JSON body is an `RBody`: a token pair (as returned by the
    refresh or login endpoints), an error object with optional detail
    and message fields, an arbitrary data value, or a parse failure
    (response.json() throwing).
  - JS truthiness of string fields (empty string is falsy) is modelled
    by `jsOr`; JS object header records are association lists with
    last-write-wins assignment (`setKey`) and spread (`spread`).
All definitions model the browser execution context, where
`typeof window` is defined.
-/

namespace XAutoPilot

/-- localStorage contents relevant to the session: the two durable tokens. -/
structure Storage where
  access_token : Option String
  refresh_token : Option String
  deriving DecidableEq, Repr

/-- Browser-visible session state: durable storage, the has_session cookie
marker, and the navigation target set via window.location.href. -/
structure Browser where
  storage : Storage
  hasSessionCookie : Bool
  href : Option String
  deriving DecidableEq, Repr

/-- A parsed JSON response body. `parseError` models response.json() throwing. -/
inductive RBody where
  | parseError : RBody
  | tokenBody : String → String → RBody
  | errBody : Option String → Option String → RBody
  | dataBody : String → RBody
  deriving DecidableEq, Repr

/-- An HTTP response: status code and body. -/
structure Response where
  status : Nat
  body : RBody
  deriving DecidableEq, Repr

/-- The network environment for one logical fetchApi call: the response to
the initial request, to the refresh-endpoint request, and to the retried
request. `none` models the fetch itself throwing. -/
structure Net where
  first : Option Response
  refreshR : Option Response
  second : Option Response
  deriving DecidableEq, Repr

/-- How one fetchApi call terminates: resolving with a parsed body
(`ok none` is the undefined result for 204), rejecting with an ApiError
carrying message and status, or rejecting with a non-ApiError exception
(network failure or JSON parse failure on a success response). -/
inductive FetchResult where
  | ok : Option RBody → FetchResult
  | apiError : String → Nat → FetchResult
  | thrown : FetchResult
  deriving DecidableEq, Repr

/-- Everything observable about one fetchApi call: its result, the final
browser state, how many times the main URL and the refresh endpoint were
fetched, the header record of the initially issued request, and whether
response.json() was invoked on the final (possibly retried) response. -/
structure Outcome where
  result : FetchResult
  storage : Storage
  cookie : Bool
  href : Option String
  mainCalls : Nat
  refreshCalls : Nat
  sentHeaders : List (String × String)
  finalParsed : Bool
  deriving DecidableEq, Repr

/-- JS `x || y` on an optional string field: undefined and the empty
string are falsy. -/
def jsOr (x : Option String) (y : String) : String :=
  match x with
  | some s => if s = "" then y else s
  | none => y

/-- JS object assignment `obj[k] = v` on a header record: overwrite the
existing entry in place, else append. -/
def setKey (m : List (String × String)) (k v : String) : List (String × String) :=
  if m.any (fun p => p.1 == k) then
    m.map (fun p => if p.1 == k then (k, v) else p)
  else m ++ [(k, v)]

/-- JS object spread `{ ...base, ...extra }`: later keys overwrite. -/
def spread (base : List (String × String)) : List (String × String) → List (String × String)
  | [] => base
  | p :: rest => spread (setKey base p.1 p.2) rest

/-- Header record lookup. -/
def getKey (m : List (String × String)) (k : String) : Option String :=
  (m.find? (fun p => p.1 == k)).map (fun p => p.2)

/-- JS `response.ok`: status in the 2xx range. -/
def respOk (r : Response) : Bool :=
  decide (200 ≤ r.status) && decide (r.status ≤ 299)

/-- The header record fetchApi builds before the first fetch: a JSON
content-type default spread with the caller headers, then, if an access
token exists, the Authorization entry is assigned the bearer token
(overwriting any caller-supplied value). -/
def mkHeaders (token : Option String) (callerHeaders : List (String × String)) :
    List (String × String) :=
  let hs0 := spread [("Content-Type", "application/json")] callerHeaders
  match token with
  | some t => setKey hs0 "Authorization" ("Bearer " ++ t)
  | none => hs0

/-- Result of refreshAccessToken: the returned new access token (null on
failure), the localStorage contents afterwards, and whether the refresh
endpoint was actually fetched. -/
structure RefreshOut where
  newToken : Option String
  storage : Storage
  called : Bool
  deriving DecidableEq, Repr

/-- refreshAccessToken from the api-client: return null without fetching
when no refresh token is stored; otherwise POST to the refresh endpoint;
on a thrown fetch, a non-2xx response or an unparseable body return null
leaving storage unchanged; on success persist both returned tokens and
return the new access token. -/
def refreshAccessToken (st : Storage) (resp : Option Response) : RefreshOut :=
  match st.refresh_token with
  | none => ⟨none, st, false⟩
  | some _ =>
    match resp with
    | none => ⟨none, st, true⟩
    | some r =>
      if respOk r then
        match r.body with
        | RBody.tokenBody a rf => ⟨some a, ⟨some a, some rf⟩, true⟩
        | _ => ⟨none, st, true⟩
      else ⟨none, st, true⟩

/-- The tail of fetchApi applied to the final (possibly retried) response:
non-2xx responses raise an ApiError whose message is the parsed detail or
message field falling back to a generic string; 204 resolves with the
undefined result without parsing; otherwise the parsed JSON body is
returned (a parse failure propagates as a thrown exception). The Bool
records whether response.json() was invoked. -/
def finishResult (r : Response) : FetchResult × Bool :=
  if respOk r = false then
    let dflt := "API error: " ++ toString r.status
    let msg :=
      match r.body with
      | RBody.errBody d m => jsOr d (jsOr m dflt)
      | _ => dflt
    (FetchResult.apiError msg r.status, true)
  else if r.status = 204 then
    (FetchResult.ok none, false)
  else
    match r.body with
    | RBody.parseError => (FetchResult.thrown, true)
    | b => (FetchResult.ok (some b), true)

/-- fetchApi from the api-client: build headers (JSON content type, caller
headers, bearer token when present), issue the request; if it returns 401
and a token had been attached, attempt exactly one refresh — on success
rebuild the Authorization header and re-issue the request once, on failure
clear both durable tokens, clear the has_session cookie, navigate to
/login and raise ApiError "Session expired" 401; finally apply the
non-2xx/204/JSON handling to the (possibly retried) response. -/
def fetchApi (b : Browser) (callerHeaders : List (String × String)) (net : Net) : Outcome :=
  let token := b.storage.access_token
  let hs := mkHeaders token callerHeaders
  match net.first with
  | none =>
    ⟨FetchResult.thrown, b.storage, b.hasSessionCookie, b.href, 1, 0, hs, false⟩
  | some r1 =>
    if r1.status = 401 ∧ token.isSome then
      let ro := refreshAccessToken b.storage net.refreshR
      let rc := if ro.called then 1 else 0
      match ro.newToken with
      | some _ =>
        match net.second with
        | none =>
          ⟨FetchResult.thrown, ro.storage, b.hasSessionCookie, b.href, 2, rc, hs, false⟩
        | some r2 =>
          let fr := finishResult r2
          ⟨fr.1, ro.storage, b.hasSessionCookie, b.href, 2, rc, hs, fr.2⟩
      | none =>
        ⟨FetchResult.apiError "Session expired" 401, ⟨none, none⟩, false, some "/login",
          1, rc, hs, false⟩
    else
      let fr := finishResult r1
      ⟨fr.1, b.storage, b.hasSessionCookie, b.href, 1, 0, hs, fr.2⟩

/-- The browser state left behind by a fetchApi call. -/
def browserOf (o : Outcome) : Browser :=
  ⟨o.storage, o.cookie, o.href⟩

/-- Observable state of the AuthProvider session store after the on-mount
bootstrap effect: the in-memory user (the parsed whoami body, null when
unauthenticated), the browser state, and how many times the refresh
endpoint was fetched during the bootstrap. -/
structure BootOutcome where
  user : Option RBody
  storage : Storage
  cookie : Bool
  href : Option String
  refreshCalls : Nat
  deriving DecidableEq, Repr

/-- The AuthProvider on-mount restoration effect: when no durable access
token exists, stop (anonymous, nothing touched); otherwise call whoami
through fetchApi (authApi.me). On a resolved call, store the user and set
the has_session cookie; on a rejected call, clear both durable tokens and
the cookie. -/
def bootstrapOp (b : Browser) (net : Net) : BootOutcome :=
  match b.storage.access_token with
  | none => ⟨none, b.storage, b.hasSessionCookie, b.href, 0⟩
  | some _ =>
    let o := fetchApi b [] net
    match o.result with
    | FetchResult.ok u => ⟨u, o.storage, true, o.href, o.refreshCalls⟩
    | _ => ⟨none, ⟨none, none⟩, false, o.href, o.refreshCalls⟩

/-- The browser state after the bootstrap effect. -/
def browserOfBoot (o : BootOutcome) : Browser :=
  ⟨o.storage, o.cookie, o.href⟩

/-- The access_token field JS would read off a parsed login or refresh
response body; a missing field is the string coercion of undefined. -/
def bodyAccessToken : RBody → String
  | RBody.tokenBody a _ => a
  | _ => "undefined"

/-- The refresh_token field JS would read off a parsed response body. -/
def bodyRefreshToken : RBody → String
  | RBody.tokenBody _ r => r
  | _ => "undefined"

/-- The AuthProvider login (and, identically, register) operation: call
the auth endpoint through fetchApi; on a resolved non-empty body persist
the returned access and refresh tokens and set the has_session cookie; a
rejected call (or a bodyless 204 resolution, on which reading the token
fields throws) leaves whatever state the fetchApi call produced. -/
def loginOp (b : Browser) (net : Net) : Browser :=
  let o := fetchApi b [] net
  match o.result with
  | FetchResult.ok (some body) =>
    ⟨⟨some (bodyAccessToken body), some (bodyRefreshToken body)⟩, true, o.href⟩
  | _ => browserOf o

/-- The AuthProvider logout operation: clear both durable tokens, clear
the has_session cookie, navigate to /login. -/
def logoutOp (_b : Browser) : Browser :=
  ⟨⟨none, none⟩, false, some "/login"⟩

/-- The browser state of a fresh anonymous visitor. -/
def initBrowser : Browser :=
  ⟨⟨none, none⟩, false, none⟩

/-- The route-guard middleware public path list. -/
def publicPaths : List String := ["/login", "/register"]

/-- String prefix test modelling JS String.prototype.startsWith. -/
def strStartsWith (s p : String) : Bool :=
  p.data.isPrefixOf s.data

/-- What the middleware replies for a request. -/
inductive MwDecision where
  | next : MwDecision
  | redirectToLogin : MwDecision
  deriving DecidableEq, Repr

/-- The route-guard middleware: requests whose pathname starts with a
public path pass unconditionally; otherwise the request passes exactly
when the has_session cookie is present, and is answered with a redirect
to /login when it is absent. The middleware receives only the pathname
and the cookie — durable storage is not in its signature, matching the
edge context in the source, which cannot read localStorage. -/
def middleware (pathname : String) (hasSessionCookie : Bool) : MwDecision :=
  if publicPaths.any (fun p => strStartsWith pathname p) then
    MwDecision.next
  else if !hasSessionCookie then
    MwDecision.redirectToLogin
  else
    MwDecision.next

/-- The tierLevel record of the TierGate component. -/
def tierLevel : List (String × Nat) :=
  [("free", 0), ("basic", 1), ("pro", 2), ("enterprise", 3)]

/-- JS record lookup tierLevel[t]. -/
def tierLevelLookup (t : String) : Option Nat :=
  (tierLevel.find? (fun p => p.1 == t)).map (fun p => p.2)

/-- What TierGate renders: the wrapped children ungated, or the children
suppressed behind the upgrade-prompt overlay. -/
inductive GateRender where
  | ungated : GateRender
  | gated : GateRender
  deriving DecidableEq, Repr

/-- The TierGate component: compare `tierLevel[currentTier] ?? 0` with
`tierLevel[requiredTier] ?? 0` and render the children ungated exactly
when the current level is at least the required level. -/
def TierGate (requiredTier currentTier : String) : GateRender :=
  let currentLevel := (tierLevelLookup currentTier).getD 0
  let requiredLevel := (tierLevelLookup requiredTier).getD 0
  if currentLevel ≥ requiredLevel then GateRender.ungated else GateRender.gated

/-- Modelled from the spec: the ordinal tier ranking
free(0) < basic(1) < pro(2) < enterprise(3) that claim C7 states the gate
compares by; written from the words of the spec, to be compared with the
TierGate implementation. -/
def specTierOrdinal : String → Nat
  | "basic" => 1
  | "pro" => 2
  | "enterprise" => 3
  | _ => 0

/-- The session-state consistency invariant carried through the C9 proof:
the cookie marker mirrors the presence of the refresh token, and the two
durable tokens are present or absent together. -/
def SessionInv (b : Browser) : Prop :=
  b.hasSessionCookie = b.storage.refresh_token.isSome ∧
  b.storage.access_token.isSome = b.storage.refresh_token.isSome

/-- Browser states reachable through the session-mutating operations:
starting anonymous, any interleaving of successful or failed logins and
registrations, logouts, bootstraps and API calls (each API call covering
token refresh success and session eviction inside fetchApi), under any
network behaviour. -/
inductive ReachableSession : Browser → Prop where
  | init : ReachableSession initBrowser
  | login (b : Browser) (net : Net) :
      ReachableSession b → ReachableSession (loginOp b net)
  | logout (b : Browser) :
      ReachableSession b → ReachableSession (logoutOp b)
  | boot (b : Browser) (net : Net) :
      ReachableSession b → ReachableSession (browserOfBoot (bootstrapOp b net))
  | api (b : Browser) (ch : List (String × String)) (net : Net) :
      ReachableSession b → ReachableSession (browserOf (fetchApi b ch net))

/- Helper lemmas about the header-record operations. -/

theorem getKey_map_replace (m : List (String × String)) (k v : String) :
    getKey (m.map (fun p => if p.1 == k then (k, v) else p)) k =
      if m.any (fun p => p.1 == k) then some v else none := by
  induction m with
  | nil => rfl
  | cons a rest ih =>
    by_cases h : a.1 = k
    · simp [getKey, List.find?, h]
    · have hb : (a.1 == k) = false := beq_eq_false_iff_ne.mpr h
      simp only [List.map_cons, List.any_cons, hb, Bool.false_or]
      simpa [getKey, List.find?, hb] using ih

theorem getKey_append_one_ne (m : List (String × String)) (k v k' : String)
    (h : k' ≠ k) : getKey (m ++ [(k, v)]) k' = getKey m k' := by
  induction m with
  | nil =>
    have hb : (k == k') = false := beq_eq_false_iff_ne.mpr (Ne.symm h)
    simp [getKey, List.find?, hb]
  | cons a rest ih =>
    by_cases ha : a.1 = k'
    · simp [getKey, List.find?, ha]
    · have hb : (a.1 == k') = false := beq_eq_false_iff_ne.mpr ha
      simpa [getKey, List.find?, hb] using ih

theorem getKey_map_replace_ne (m : List (String × String)) (k v k' : String)
    (h : k' ≠ k) :
    getKey (m.map (fun p => if p.1 == k then (k, v) else p)) k' = getKey m k' := by
  induction m with
  | nil => rfl
  | cons a rest ih =>
    simp only [List.map_cons]
    by_cases hak : a.1 = k
    · rw [if_pos (beq_iff_eq.mpr hak)]
      unfold getKey
      rw [List.find?_cons_of_neg, List.find?_cons_of_neg]
      · exact ih
      · show ¬ (a.1 == k') = true
        simp [hak, Ne.symm h]
      · show ¬ ((k, v).1 == k') = true
        simp [Ne.symm h]
    · rw [if_neg (by simp [hak])]
      by_cases hak' : a.1 = k'
      · unfold getKey
        rw [List.find?_cons_of_pos, List.find?_cons_of_pos] <;> simp [hak']
      · unfold getKey
        rw [List.find?_cons_of_neg, List.find?_cons_of_neg]
        · exact ih
        · simp [hak']
        · simp [hak']

theorem getKey_setKey_self (m : List (String × String)) (k v : String) :
    getKey (setKey m k v) k = some v := by
  unfold setKey
  by_cases h : m.any (fun p => p.1 == k)
  · rw [if_pos h, getKey_map_replace, if_pos h]
  · rw [if_neg h]
    have hf : (m.any fun p => p.1 == k) = false := by
      cases hh : m.any fun p => p.1 == k
      · rfl
      · exact absurd hh h
    have hnone : m.find? (fun p => p.1 == k) = none :=
      List.find?_eq_none.mpr (List.any_eq_false.mp hf)
    unfold getKey
    rw [List.find?_append, hnone, Option.none_or,
      @List.find?_cons_of_pos _ (fun p => p.1 == k) (k, v) [] (beq_self_eq_true k)]
    rfl

theorem getKey_setKey_ne (m : List (String × String)) (k v k' : String)
    (h : k' ≠ k) : getKey (setKey m k v) k' = getKey m k' := by
  unfold setKey
  by_cases ha : m.any (fun p => p.1 == k)
  · rw [if_pos ha, getKey_map_replace_ne _ _ _ _ h]
  · rw [if_neg ha, getKey_append_one_ne _ _ _ _ h]

theorem getKey_spread_of_not_mem (ch : List (String × String))
    (base : List (String × String)) (k : String) (h : k ∉ ch.map Prod.fst) :
    getKey (spread base ch) k = getKey base k := by
  induction ch generalizing base with
  | nil => rfl
  | cons p rest ih =>
    simp only [List.map_cons, List.mem_cons, not_or] at h
    rw [spread, ih _ h.2, getKey_setKey_ne _ _ _ _ h.1]

theorem getKey_spread_of_mem (ch : List (String × String))
    (base : List (String × String)) (k v : String)
    (hn : (ch.map Prod.fst).Nodup) (hm : (k, v) ∈ ch) :
    getKey (spread base ch) k = some v := by
  induction ch generalizing base with
  | nil => cases hm
  | cons p rest ih =>
    simp only [List.map_cons, List.nodup_cons] at hn
    rcases List.mem_cons.mp hm with he | hr
    · subst he
      rw [spread, getKey_spread_of_not_mem _ _ _ hn.1, getKey_setKey_self]
    · rw [spread]
      exact ih _ hn.2 hr

theorem getKey_eq_some_mem (m : List (String × String)) (k v : String)
    (h : getKey m k = some v) : (k, v) ∈ m := by
  unfold getKey at h
  rcases hf : m.find? (fun p => p.1 == k) with _ | p
  · rw [hf] at h; cases h
  · rw [hf] at h
    have hp : p.1 = k := by
      have := List.find?_some hf
      exact beq_iff_eq.mp this
    have hv : p.2 = v := by simpa using h
    have hmem := List.mem_of_find?_eq_some hf
    have : p = (k, v) := by
      cases p
      simp_all
    rwa [this] at hmem

theorem getKey_eq_none_not_mem (m : List (String × String)) (k : String)
    (h : getKey m k = none) : k ∉ m.map Prod.fst := by
  intro hmem
  rcases List.mem_map.mp hmem with ⟨p, hp, hpk⟩
  have hfind := Option.map_eq_none.mp h
  have := List.find?_eq_none.mp hfind p hp
  apply this
  rw [hpk]
  exact beq_self_eq_true k

/- Helper lemmas characterizing refreshAccessToken and fetchApi. -/

theorem refreshAccessToken_newToken_none (st : Storage) (resp : Option Response)
    (h : (refreshAccessToken st resp).newToken = none) :
    (refreshAccessToken st resp).storage = st := by
  cases hrt : st.refresh_token with
  | none => simp [refreshAccessToken, hrt]
  | some rt =>
    cases resp with
    | none => simp [refreshAccessToken, hrt]
    | some r =>
      by_cases hok : respOk r = true
      · cases hb : r.body <;> simp [refreshAccessToken, hrt, hok, hb] at h ⊢
      · simp [refreshAccessToken, hrt, hok]

theorem refreshAccessToken_newToken_some (st : Storage) (resp : Option Response)
    (nt : String) (h : (refreshAccessToken st resp).newToken = some nt) :
    ∃ rf, (refreshAccessToken st resp).storage = ⟨some nt, some rf⟩ := by
  cases hrt : st.refresh_token with
  | none => simp [refreshAccessToken, hrt] at h
  | some rt =>
    cases resp with
    | none => simp [refreshAccessToken, hrt] at h
    | some r =>
      by_cases hok : respOk r = true
      · cases hb : r.body with
        | tokenBody a rf =>
          refine ⟨rf, ?_⟩
          simp [refreshAccessToken, hrt, hok, hb] at h ⊢
          rw [h]
        | parseError => simp [refreshAccessToken, hrt, hok, hb] at h
        | errBody d m => simp [refreshAccessToken, hrt, hok, hb] at h
        | dataBody v => simp [refreshAccessToken, hrt, hok, hb] at h
      · simp [refreshAccessToken, hrt, hok] at h

theorem refreshAccessToken_not_called (st : Storage) (resp : Option Response)
    (h : st.refresh_token = none) :
    refreshAccessToken st resp = ⟨none, st, false⟩ := by
  unfold refreshAccessToken
  rw [h]

/-- The header record of the initially issued request is always the one
mkHeaders builds, whatever the network does. -/
theorem fetchApi_sentHeaders (b : Browser) (ch : List (String × String)) (net : Net) :
    (fetchApi b ch net).sentHeaders = mkHeaders b.storage.access_token ch := by
  unfold fetchApi
  cases net.first with
  | none => rfl
  | some r1 =>
    dsimp only
    by_cases hc : r1.status = 401 ∧ (b.storage.access_token).isSome
    · rw [if_pos hc]
      cases (refreshAccessToken b.storage net.refreshR).newToken with
      | none => rfl
      | some nt => cases net.second <;> rfl
    · rw [if_neg hc]

/-- When no refresh token is stored, no fetchApi call ever fetches the
refresh endpoint. -/
theorem fetchApi_refreshCalls_zero (b : Browser) (ch : List (String × String))
    (net : Net) (h : b.storage.refresh_token = none) :
    (fetchApi b ch net).refreshCalls = 0 := by
  unfold fetchApi
  cases net.first with
  | none => rfl
  | some r1 =>
    dsimp only
    by_cases hc : r1.status = 401 ∧ (b.storage.access_token).isSome
    · rw [if_pos hc, refreshAccessToken_not_called _ _ h]
      rfl
    · rw [if_neg hc]

/-- fetchApi preserves the session-state consistency invariant. -/
theorem fetchApi_sessionInv (b : Browser) (ch : List (String × String)) (net : Net)
    (h : SessionInv b) : SessionInv (browserOf (fetchApi b ch net)) := by
  obtain ⟨hck, hat⟩ := h
  unfold fetchApi
  cases net.first with
  | none => exact ⟨hck, hat⟩
  | some r1 =>
    dsimp only
    by_cases hc : r1.status = 401 ∧ (b.storage.access_token).isSome
    · rw [if_pos hc]
      have hrs : b.storage.refresh_token.isSome = true := hat ▸ hc.2
      have hcook : b.hasSessionCookie = true := hck.trans hrs
      cases hnt : (refreshAccessToken b.storage net.refreshR).newToken with
      | none => exact ⟨rfl, rfl⟩
      | some nt =>
        obtain ⟨rf, hrf⟩ := refreshAccessToken_newToken_some _ _ _ hnt
        cases net.second <;>
          exact ⟨by simp [browserOf, SessionInv, hrf, hcook], by simp [browserOf, hrf]⟩
    · rw [if_neg hc]
      exact ⟨hck, hat⟩

/-- When an access token was attached and the call resolves, both durable
tokens are present afterwards. -/
theorem fetchApi_ok_storage (b : Browser) (ch : List (String × String)) (net : Net)
    (v : Option RBody) (h : SessionInv b)
    (hat : b.storage.access_token.isSome = true)
    (hres : (fetchApi b ch net).result = FetchResult.ok v) :
    (fetchApi b ch net).storage.access_token.isSome = true ∧
    (fetchApi b ch net).storage.refresh_token.isSome = true := by
  have hrt : b.storage.refresh_token.isSome = true := h.2 ▸ hat
  unfold fetchApi at hres ⊢
  cases hf : net.first with
  | none => simp [hf] at hres
  | some r1 =>
    rw [hf] at hres
    dsimp only at hres ⊢
    by_cases hc : r1.status = 401 ∧ (b.storage.access_token).isSome
    · rw [if_pos hc] at hres ⊢
      cases hnt : (refreshAccessToken b.storage net.refreshR).newToken with
      | none =>
        rw [hnt] at hres
        simp at hres
      | some nt =>
        obtain ⟨rf, hrf⟩ := refreshAccessToken_newToken_some _ _ _ hnt
        rw [hnt] at hres
        cases net.second <;> simp [hrf]
    · rw [if_neg hc] at hres ⊢
      exact ⟨hat, hrt⟩

/-- The login (and register) operation preserves the session-state
consistency invariant. -/
theorem loginOp_sessionInv (b : Browser) (net : Net) (h : SessionInv b) :
    SessionInv (loginOp b net) := by
  unfold loginOp
  dsimp only
  cases hres : (fetchApi b [] net).result with
  | ok v =>
    cases v with
    | some body => exact ⟨rfl, rfl⟩
    | none => exact fetchApi_sessionInv b [] net h
  | apiError m s => exact fetchApi_sessionInv b [] net h
  | thrown => exact fetchApi_sessionInv b [] net h

/-- The bootstrap operation preserves the session-state consistency
invariant. -/
theorem bootstrapOp_sessionInv (b : Browser) (net : Net) (h : SessionInv b) :
    SessionInv (browserOfBoot (bootstrapOp b net)) := by
  unfold bootstrapOp
  cases hacc : b.storage.access_token with
  | none => exact h
  | some t =>
    have hsome : b.storage.access_token.isSome = true := by rw [hacc]; rfl
    dsimp only
    cases hres : (fetchApi b [] net).result with
    | ok v =>
      obtain ⟨ha, hr⟩ := fetchApi_ok_storage b [] net v h hsome hres
      exact ⟨hr.symm, ha.trans hr.symm⟩
    | apiError m s => exact ⟨rfl, rfl⟩
    | thrown => exact ⟨rfl, rfl⟩

/-- Every state reachable through the session-mutating operations
satisfies the consistency invariant. -/
theorem reachable_sessionInv (b : Browser) (h : ReachableSession b) :
    SessionInv b := by
  induction h with
  | init => exact ⟨rfl, rfl⟩
  | login b net _ ih => exact loginOp_sessionInv b net ih
  | logout b _ => exact ⟨rfl, rfl⟩
  | boot b net _ ih => exact bootstrapOp_sessionInv b net ih
  | api b ch net _ ih => exact fetchApi_sessionInv b ch net ih

theorem finishResult_not_ok (r : Response) (h : respOk r = false) :
    ∃ msg, finishResult r = (FetchResult.apiError msg r.status, true) := by
  unfold finishResult
  rw [if_pos h]
  exact ⟨_, rfl⟩

theorem finishResult_204 (r : Response) (hok : respOk r = true)
    (h204 : r.status = 204) : finishResult r = (FetchResult.ok none, false) := by
  unfold finishResult
  rw [if_neg (by simp [hok]), if_pos h204]

theorem finishResult_ok_body (r : Response) (hok : respOk r = true)
    (hne : r.status ≠ 204) (hb : r.body ≠ RBody.parseError) :
    finishResult r = (FetchResult.ok (some r.body), true) := by
  unfold finishResult
  rw [if_neg (by simp [hok]), if_neg hne]
  cases hbv : r.body with
  | parseError => exact absurd hbv hb
  | tokenBody a rf => rfl
  | errBody d m => rfl
  | dataBody v => rfl

/-- Claim C1: when the initial authenticated request returns 401, the
refresh succeeds, and the re-issued request also returns 401, fetchApi
fetches the refresh endpoint exactly once and fails with the typed
ApiError carrying status 401 from the second response; it never calls the
refresh endpoint a second time for the same logical call. -/
theorem claimC1_single_refresh_retry (b : Browser) (ch : List (String × String))
    (net : Net) (t rt a2 rf2 : String) (r1 rr r2 : Response)
    (hat : b.storage.access_token = some t)
    (h1 : net.first = some r1) (h1s : r1.status = 401)
    (hrt : b.storage.refresh_token = some rt)
    (hrr : net.refreshR = some rr) (hrok : respOk rr = true)
    (hrb : rr.body = RBody.tokenBody a2 rf2)
    (h2 : net.second = some r2) (h2s : r2.status = 401) :
    (fetchApi b ch net).refreshCalls = 1 ∧
    ∃ msg, (fetchApi b ch net).result = FetchResult.apiError msg 401 := by
  have hro : refreshAccessToken b.storage net.refreshR =
      ⟨some a2, ⟨some a2, some rf2⟩, true⟩ := by
    simp [refreshAccessToken, hrt, hrr, hrok, hrb]
  have hok2 : respOk r2 = false := by simp [respOk, h2s]
  obtain ⟨msg, hmsg⟩ := finishResult_not_ok r2 hok2
  unfold fetchApi
  rw [h1]
  dsimp only
  rw [if_pos ⟨h1s, by rw [hat]; rfl⟩, hro]
  dsimp only
  rw [h2]
  dsimp only
  rw [hmsg, h2s]
  exact ⟨rfl, msg, rfl⟩

theorem claimC1_witness :
    (fetchApi ⟨⟨some "A", some "R"⟩, true, none⟩ []
        ⟨some ⟨401, RBody.errBody none none⟩, some ⟨200, RBody.tokenBody "A2" "R2"⟩,
          some ⟨401, RBody.errBody (some "nope") none⟩⟩).refreshCalls = 1 ∧
    ∃ msg, (fetchApi ⟨⟨some "A", some "R"⟩, true, none⟩ []
        ⟨some ⟨401, RBody.errBody none none⟩, some ⟨200, RBody.tokenBody "A2" "R2"⟩,
          some ⟨401, RBody.errBody (some "nope") none⟩⟩).result =
      FetchResult.apiError msg 401 :=
  claimC1_single_refresh_retry _ _ _ "A" "R" "A2" "R2"
    ⟨401, RBody.errBody none none⟩ ⟨200, RBody.tokenBody "A2" "R2"⟩
    ⟨401, RBody.errBody (some "nope") none⟩
    rfl rfl rfl rfl rfl (by decide) rfl rfl rfl

/-- Claim C2: when the initial authenticated request returns 401 and the
refresh fails (no refresh token stored, refresh fetch throws, or the
refresh endpoint answers non-2xx), fetchApi removes both durable tokens,
clears the has_session cookie, navigates to /login, and fails with the
typed ApiError whose message is Session expired and whose status is
401. -/
theorem claimC2_session_eviction (b : Browser) (ch : List (String × String))
    (net : Net) (t : String) (r1 : Response)
    (hat : b.storage.access_token = some t)
    (h1 : net.first = some r1) (h1s : r1.status = 401)
    (hfail : b.storage.refresh_token = none ∨ net.refreshR = none ∨
      ∃ rr, net.refreshR = some rr ∧ respOk rr = false) :
    (fetchApi b ch net).result = FetchResult.apiError "Session expired" 401 ∧
    (fetchApi b ch net).storage = ⟨none, none⟩ ∧
    (fetchApi b ch net).cookie = false ∧
    (fetchApi b ch net).href = some "/login" := by
  have hro : (refreshAccessToken b.storage net.refreshR).newToken = none := by
    rcases hfail with h | h | ⟨rr, hr, hok⟩
    · simp [refreshAccessToken, h]
    · cases hrt : b.storage.refresh_token <;> simp [refreshAccessToken, hrt, h]
    · cases hrt : b.storage.refresh_token <;> simp [refreshAccessToken, hrt, hr, hok]
  unfold fetchApi
  rw [h1]
  dsimp only
  rw [if_pos ⟨h1s, by rw [hat]; rfl⟩, hro]
  exact ⟨rfl, rfl, rfl, rfl⟩

theorem claimC2_witness :
    (fetchApi ⟨⟨some "A", some "R"⟩, true, none⟩ []
        ⟨some ⟨401, RBody.errBody none none⟩, some ⟨500, RBody.errBody none none⟩,
          none⟩).result = FetchResult.apiError "Session expired" 401 ∧
    (fetchApi ⟨⟨some "A", some "R"⟩, true, none⟩ []
        ⟨some ⟨401, RBody.errBody none none⟩, some ⟨500, RBody.errBody none none⟩,
          none⟩).storage = ⟨none, none⟩ ∧
    (fetchApi ⟨⟨some "A", some "R"⟩, true, none⟩ []
        ⟨some ⟨401, RBody.errBody none none⟩, some ⟨500, RBody.errBody none none⟩,
          none⟩).cookie = false ∧
    (fetchApi ⟨⟨some "A", some "R"⟩, true, none⟩ []
        ⟨some ⟨401, RBody.errBody none none⟩, some ⟨500, RBody.errBody none none⟩,
          none⟩).href = some "/login" :=
  claimC2_session_eviction _ _ _ "A" _ rfl rfl rfl
    (Or.inr (Or.inr ⟨⟨500, RBody.errBody none none⟩, rfl, by decide⟩))

/-- Claim C3: when the initial authenticated request returns 401, the
refresh endpoint answers 2xx with new tokens, and the re-issued request
returns 200, the caller receives the parsed body of the final response
and durable storage holds the new access and refresh tokens. -/
theorem claimC3_refresh_transparency (b : Browser) (ch : List (String × String))
    (net : Net) (t rt a2 rf2 : String) (r1 rr r2 : Response)
    (hat : b.storage.access_token = some t)
    (h1 : net.first = some r1) (h1s : r1.status = 401)
    (hrt : b.storage.refresh_token = some rt)
    (hrr : net.refreshR = some rr) (hrok : respOk rr = true)
    (hrb : rr.body = RBody.tokenBody a2 rf2)
    (h2 : net.second = some r2) (h2s : r2.status = 200)
    (h2b : r2.body ≠ RBody.parseError) :
    (fetchApi b ch net).result = FetchResult.ok (some r2.body) ∧
    (fetchApi b ch net).storage = ⟨some a2, some rf2⟩ := by
  have hro : refreshAccessToken b.storage net.refreshR =
      ⟨some a2, ⟨some a2, some rf2⟩, true⟩ := by
    simp [refreshAccessToken, hrt, hrr, hrok, hrb]
  have hok2 : respOk r2 = true := by simp [respOk, h2s]
  have hfin := finishResult_ok_body r2 hok2 (by rw [h2s]; decide) h2b
  unfold fetchApi
  rw [h1]
  dsimp only
  rw [if_pos ⟨h1s, by rw [hat]; rfl⟩, hro]
  dsimp only
  rw [h2]
  dsimp only
  rw [hfin]
  exact ⟨rfl, rfl⟩

theorem claimC3_witness :
    (fetchApi ⟨⟨some "A", some "R"⟩, true, none⟩ []
        ⟨some ⟨401, RBody.errBody none none⟩, some ⟨200, RBody.tokenBody "A2" "R2"⟩,
          some ⟨200, RBody.dataBody "post42"⟩⟩).result =
      FetchResult.ok (some (RBody.dataBody "post42")) ∧
    (fetchApi ⟨⟨some "A", some "R"⟩, true, none⟩ []
        ⟨some ⟨401, RBody.errBody none none⟩, some ⟨200, RBody.tokenBody "A2" "R2"⟩,
          some ⟨200, RBody.dataBody "post42"⟩⟩).storage = ⟨some "A2", some "R2"⟩ :=
  claimC3_refresh_transparency _ _ _ "A" "R" "A2" "R2"
    ⟨401, RBody.errBody none none⟩ ⟨200, RBody.tokenBody "A2" "R2"⟩
    ⟨200, RBody.dataBody "post42"⟩
    rfl rfl rfl rfl rfl (by decide) rfl rfl rfl (by decide)

/-- Claim C6: when the final (possibly retried) response has status 204,
fetchApi resolves with the explicit undefined result and does not invoke
JSON parsing on the response body. -/
theorem claimC6_204_no_parse (b : Browser) (ch : List (String × String))
    (net : Net) (r : Response) (h204 : r.status = 204)
    (hcase : net.first = some r ∨
      ∃ t rt a2 rf2 r1 rr, b.storage.access_token = some t ∧ net.first = some r1 ∧
        r1.status = 401 ∧ b.storage.refresh_token = some rt ∧
        net.refreshR = some rr ∧ respOk rr = true ∧
        rr.body = RBody.tokenBody a2 rf2 ∧ net.second = some r) :
    (fetchApi b ch net).result = FetchResult.ok none ∧
    (fetchApi b ch net).finalParsed = false := by
  have hok : respOk r = true := by simp [respOk, h204]
  have hfin := finishResult_204 r hok h204
  rcases hcase with h1 | ⟨t, rt, a2, rf2, r1, rr, hat, h1, h1s, hrt, hrr, hrok, hrb, h2⟩
  · unfold fetchApi
    rw [h1]
    dsimp only
    rw [if_neg (by rw [h204]; simp), hfin]
    exact ⟨rfl, rfl⟩
  · have hro : refreshAccessToken b.storage net.refreshR =
        ⟨some a2, ⟨some a2, some rf2⟩, true⟩ := by
      simp [refreshAccessToken, hrt, hrr, hrok, hrb]
    unfold fetchApi
    rw [h1]
    dsimp only
    rw [if_pos ⟨h1s, by rw [hat]; rfl⟩, hro]
    dsimp only
    rw [h2]
    dsimp only
    rw [hfin]
    exact ⟨rfl, rfl⟩

theorem claimC6_witness :
    (fetchApi ⟨⟨some "A", some "R"⟩, true, none⟩ []
        ⟨some ⟨204, RBody.parseError⟩, none, none⟩).result = FetchResult.ok none ∧
    (fetchApi ⟨⟨some "A", some "R"⟩, true, none⟩ []
        ⟨some ⟨204, RBody.parseError⟩, none, none⟩).finalParsed = false :=
  claimC6_204_no_parse _ _ _ ⟨204, RBody.parseError⟩ rfl (Or.inl rfl)

/-- Claim C4 counterexample: on bootstrap with an access token the backend
rejects with 401 and a refresh token stored, the whoami call made through
fetchApi fetches the refresh endpoint once, and after a successful refresh
the bootstrap ends Authenticated — contradicting the claim that the store
ends Anonymous without any refresh call when the access token is invalid. -/
theorem claimC4_counterexample :
    (bootstrapOp ⟨⟨some "A", some "R"⟩, true, none⟩
        ⟨some ⟨401, RBody.errBody none none⟩, some ⟨200, RBody.tokenBody "A2" "R2"⟩,
          some ⟨200, RBody.dataBody "user7"⟩⟩).refreshCalls = 1 ∧
    (bootstrapOp ⟨⟨some "A", some "R"⟩, true, none⟩
        ⟨some ⟨401, RBody.errBody none none⟩, some ⟨200, RBody.tokenBody "A2" "R2"⟩,
          some ⟨200, RBody.dataBody "user7"⟩⟩).user =
      some (RBody.dataBody "user7") := by
  decide

/-- Claim C4 (amended): during bootstrap, if a durable access token exists
and the whoami call resolves, the store ends Authenticated with the
returned user and the has_session cookie set; if the whoami call — which
runs through fetchApi and therefore includes its automatic
refresh-and-retry on 401 — ultimately rejects, bootstrap ends Anonymous
with both durable tokens and the cookie cleared. No call to the refresh
endpoint is made during bootstrap when no refresh token is present in
durable storage; when one is present, fetchApi may call the refresh
endpoint. -/
theorem claimC4_bootstrap_restoration (b : Browser) (net : Net)
    (t m : String) (s : Nat) (u : RBody) :
    (b.storage.access_token = some t →
      (fetchApi b [] net).result = FetchResult.ok (some u) →
      (bootstrapOp b net).user = some u ∧ (bootstrapOp b net).cookie = true) ∧
    (b.storage.access_token = some t →
      ((fetchApi b [] net).result = FetchResult.apiError m s ∨
        (fetchApi b [] net).result = FetchResult.thrown) →
      (bootstrapOp b net).user = none ∧
      (bootstrapOp b net).storage = ⟨none, none⟩ ∧
      (bootstrapOp b net).cookie = false) ∧
    (b.storage.refresh_token = none → (bootstrapOp b net).refreshCalls = 0) := by
  refine ⟨?_, ?_, ?_⟩
  · intro hat hres
    unfold bootstrapOp
    rw [hat]
    dsimp only
    rw [hres]
    exact ⟨rfl, rfl⟩
  · intro hat hres
    unfold bootstrapOp
    rw [hat]
    dsimp only
    rcases hres with h | h <;> rw [h] <;> exact ⟨rfl, rfl, rfl⟩
  · intro hrt
    unfold bootstrapOp
    cases hacc : b.storage.access_token with
    | none => rfl
    | some t2 =>
      dsimp only
      cases hres : (fetchApi b [] net).result with
      | ok v => exact fetchApi_refreshCalls_zero b [] net hrt
      | apiError m2 s2 => exact fetchApi_refreshCalls_zero b [] net hrt
      | thrown => exact fetchApi_refreshCalls_zero b [] net hrt

theorem claimC4_witness :
    ((bootstrapOp ⟨⟨some "A", some "R"⟩, true, none⟩
        ⟨some ⟨200, RBody.dataBody "u1"⟩, none, none⟩).user =
          some (RBody.dataBody "u1") ∧
      (bootstrapOp ⟨⟨some "A", some "R"⟩, true, none⟩
        ⟨some ⟨200, RBody.dataBody "u1"⟩, none, none⟩).cookie = true) ∧
    ((bootstrapOp ⟨⟨some "A", none⟩, false, none⟩
        ⟨some ⟨401, RBody.errBody none none⟩, none, none⟩).user = none ∧
      (bootstrapOp ⟨⟨some "A", none⟩, false, none⟩
        ⟨some ⟨401, RBody.errBody none none⟩, none, none⟩).storage = ⟨none, none⟩ ∧
      (bootstrapOp ⟨⟨some "A", none⟩, false, none⟩
        ⟨some ⟨401, RBody.errBody none none⟩, none, none⟩).cookie = false) ∧
    (bootstrapOp ⟨⟨some "A", none⟩, false, none⟩
        ⟨some ⟨401, RBody.errBody none none⟩, none, none⟩).refreshCalls = 0 :=
  ⟨(claimC4_bootstrap_restoration ⟨⟨some "A", some "R"⟩, true, none⟩
      ⟨some ⟨200, RBody.dataBody "u1"⟩, none, none⟩ "A" "x" 0
      (RBody.dataBody "u1")).1 rfl (by decide),
   (claimC4_bootstrap_restoration ⟨⟨some "A", none⟩, false, none⟩
      ⟨some ⟨401, RBody.errBody none none⟩, none, none⟩ "A" "Session expired" 401
      (RBody.dataBody "u1")).2.1 rfl (Or.inl (by decide)),
   (claimC4_bootstrap_restoration ⟨⟨some "A", none⟩, false, none⟩
      ⟨some ⟨401, RBody.errBody none none⟩, none, none⟩ "A" "Session expired" 401
      (RBody.dataBody "u1")).2.2 rfl⟩

/-- Claim C5 counterexample: with an access token in durable storage, a
caller-supplied Authorization header is overwritten by the bearer header:
the caller pair is absent from the issued request, so caller headers can
be silently dropped, contrary to the claim. -/
theorem claimC5_counterexample :
    ("Authorization", "Basic abc") ∉
      (fetchApi ⟨⟨some "tok", some "r"⟩, true, none⟩
        [("Authorization", "Basic abc")]
        ⟨some ⟨200, RBody.dataBody "x"⟩, none, none⟩).sentHeaders := by
  decide

/-- Claim C5 (amended): the issued request carries the JSON content-type
header unless the caller supplied a content-type entry, and the bearer
authorization header whenever an access token exists in durable storage;
every caller-supplied header whose key is not the authorization key (and
every caller header at all when no access token is stored) is present in
the issued request — but a caller-supplied authorization header is
overwritten by the bearer token when an access token exists. -/
theorem claimC5_header_merge (b : Browser) (ch : List (String × String))
    (net : Net) (k v t : String) (hnodup : (ch.map Prod.fst).Nodup) :
    (getKey ch "Content-Type" = none →
      getKey (fetchApi b ch net).sentHeaders "Content-Type" =
        some "application/json") ∧
    (b.storage.access_token = some t →
      getKey (fetchApi b ch net).sentHeaders "Authorization" =
        some ("Bearer " ++ t)) ∧
    ((k, v) ∈ ch → k ≠ "Authorization" ∨ b.storage.access_token = none →
      getKey (fetchApi b ch net).sentHeaders k = some v) := by
  rw [fetchApi_sentHeaders]
  refine ⟨?_, ?_, ?_⟩
  · intro hct
    have hnm := getKey_eq_none_not_mem ch "Content-Type" hct
    unfold mkHeaders
    cases hat : b.storage.access_token with
    | none =>
      dsimp only
      rw [getKey_spread_of_not_mem _ _ _ hnm]
      decide
    | some t2 =>
      dsimp only
      rw [getKey_setKey_ne _ _ _ _ (by decide),
        getKey_spread_of_not_mem _ _ _ hnm]
      decide
  · intro hat
    unfold mkHeaders
    rw [hat]
    exact getKey_setKey_self _ _ _
  · intro hm hk
    unfold mkHeaders
    rcases hk with hk | hk
    · cases hat : b.storage.access_token with
      | none =>
        dsimp only
        exact getKey_spread_of_mem _ _ _ _ hnodup hm
      | some t2 =>
        dsimp only
        rw [getKey_setKey_ne _ _ _ _ hk]
        exact getKey_spread_of_mem _ _ _ _ hnodup hm
    · rw [hk]
      dsimp only
      exact getKey_spread_of_mem _ _ _ _ hnodup hm

theorem claimC5_witness :
    (getKey (fetchApi ⟨⟨some "tok", some "r"⟩, true, none⟩ [("X-Custom", "1")]
        ⟨some ⟨200, RBody.dataBody "x"⟩, none, none⟩).sentHeaders "Content-Type" =
      some "application/json") ∧
    (getKey (fetchApi ⟨⟨some "tok", some "r"⟩, true, none⟩ [("X-Custom", "1")]
        ⟨some ⟨200, RBody.dataBody "x"⟩, none, none⟩).sentHeaders "Authorization" =
      some ("Bearer " ++ "tok")) ∧
    (getKey (fetchApi ⟨⟨some "tok", some "r"⟩, true, none⟩ [("X-Custom", "1")]
        ⟨some ⟨200, RBody.dataBody "x"⟩, none, none⟩).sentHeaders "X-Custom" =
      some "1") :=
  have h := claimC5_header_merge ⟨⟨some "tok", some "r"⟩, true, none⟩
    [("X-Custom", "1")] ⟨some ⟨200, RBody.dataBody "x"⟩, none, none⟩
    "X-Custom" "1" "tok" (by decide)
  ⟨h.1 (by decide), h.2.1 rfl, h.2.2 (by decide) (Or.inl (by decide))⟩

/-- Claim C7: the tier gate renders content ungated exactly when the
ordinal level of the current tier under free(0) < basic(1) < pro(2) <
enterprise(3) is at least the ordinal level of the required tier, for
every permitted pair of tiers. -/
theorem claimC7_tier_gate_ordinal (c r : String)
    (hc : c ∈ (["free", "basic", "pro", "enterprise"] : List String))
    (hr : r ∈ (["basic", "pro", "enterprise"] : List String)) :
    (TierGate r c = GateRender.ungated ↔ specTierOrdinal r ≤ specTierOrdinal c) := by
  fin_cases hc <;> fin_cases hr <;> decide

theorem claimC7_witness :
    (TierGate "basic" "pro" = GateRender.ungated ↔
      specTierOrdinal "basic" ≤ specTierOrdinal "pro") :=
  claimC7_tier_gate_ordinal "pro" "basic" (by decide) (by decide)

/-- Claim C8: the route guard passes requests on public paths without
consulting the cookie (the decision is the same for both cookie states),
redirects to /login when the path is not public and the has_session
cookie is absent, and passes when the cookie is present; durable storage
does not occur in its signature at all. -/
theorem claimC8_route_guard (p : String) :
    ((strStartsWith p "/login" || strStartsWith p "/register") = true →
      middleware p false = MwDecision.next ∧ middleware p true = MwDecision.next) ∧
    ((strStartsWith p "/login" || strStartsWith p "/register") = false →
      middleware p false = MwDecision.redirectToLogin ∧
      middleware p true = MwDecision.next) := by
  have hany : (publicPaths.any fun q => strStartsWith p q) =
      (strStartsWith p "/login" || strStartsWith p "/register") := by
    simp [publicPaths]
  constructor
  · intro h
    constructor <;> simp [middleware, hany, h]
  · intro h
    constructor <;> simp [middleware, hany, h]

theorem claimC8_witness :
    (middleware "/login" false = MwDecision.next ∧
      middleware "/login" true = MwDecision.next) ∧
    (middleware "/dashboard" false = MwDecision.redirectToLogin ∧
      middleware "/dashboard" true = MwDecision.next) :=
  ⟨(claimC8_route_guard "/login").1 (by decide),
    (claimC8_route_guard "/dashboard").2 (by decide)⟩

/-- Claim C9: in every browser state reachable through the
session-mutating operations (login, register, logout, bootstrap in both
outcomes, and API calls covering refresh success and session eviction),
the has_session cookie is set if and only if a refresh token is present
in durable storage. -/
theorem claimC9_cookie_invariant (b : Browser) (h : ReachableSession b) :
    b.hasSessionCookie = b.storage.refresh_token.isSome :=
  (reachable_sessionInv b h).1

theorem claimC9_witness :
    (loginOp initBrowser
        ⟨some ⟨200, RBody.tokenBody "A" "R"⟩, none, none⟩).hasSessionCookie =
      (loginOp initBrowser
        ⟨some ⟨200, RBody.tokenBody "A" "R"⟩, none, none⟩).storage.refresh_token.isSome :=
  claimC9_cookie_invariant _
    (ReachableSession.login initBrowser
      ⟨some ⟨200, RBody.tokenBody "A" "R"⟩, none, none⟩ ReachableSession.init)

/-- Claim C10: a current tier outside the four known tier names falls back
to level 0, and since every permitted required tier has level at least 1,
such a user always sees the gated rendering. -/
theorem claimC10_unknown_tier_gated (c r : String)
    (hc : c ∉ (["free", "basic", "pro", "enterprise"] : List String))
    (hr : r ∈ (["basic", "pro", "enterprise"] : List String)) :
    TierGate r c = GateRender.gated := by
  have h1 : c ≠ "free" := fun h => hc (by rw [h]; decide)
  have h2 : c ≠ "basic" := fun h => hc (by rw [h]; decide)
  have h3 : c ≠ "pro" := fun h => hc (by rw [h]; decide)
  have h4 : c ≠ "enterprise" := fun h => hc (by rw [h]; decide)
  have hnone : tierLevelLookup c = none := by
    unfold tierLevelLookup tierLevel
    rw [List.find?_cons_of_neg _ (by simp [Ne.symm h1]),
      List.find?_cons_of_neg _ (by simp [Ne.symm h2]),
      List.find?_cons_of_neg _ (by simp [Ne.symm h3]),
      List.find?_cons_of_neg _ (by simp [Ne.symm h4])]
    rfl
  fin_cases hr <;> (unfold TierGate; dsimp only; rw [hnone]; decide)

theorem claimC10_witness : TierGate "basic" "gold" = GateRender.gated :=
  claimC10_unknown_tier_gated "gold" "basic" (by decide) (by decide)

end XAutoPilot
